import Mathlib

/-!
The `hmw3` static-routing scenario.

A shallow embedding of `scratch/hmw3.cc`.  The program is a straight-line
configuration script: `main` creates four nodes, chains them with three
point-to-point links, numbers the interfaces, installs six host routes and
two applications, and then starts the simulator.  The embedding keeps the
script's statements in their order as explicit state passing over a `Sim`
record; the simulator library calls the script makes (`Install`, `SetBase`,
`Assign`, `AddInterface`, `AddAddress`, `AddHostRouteTo`, ...) are small
state transformers on that record.
-/

namespace Hmw3

/-! ## Addresses and masks (32-bit values) -/

/-- The 32-bit value of the dotted-quad address `a.b.c.d`, as built by
`Ipv4Address("a.b.c.d")`. -/
def Ipv4Address (a b c d : Nat) : Nat :=
  ((a * 256 + b) * 256 + c) * 256 + d

/-- The mask built by `Ipv4Mask("a.b.c.d")` from a dotted-quad string. -/
def Ipv4Mask.dotted (a b c d : Nat) : Nat :=
  Ipv4Address a b c d

/-- The mask built by `Ipv4Mask("/plen")` from a prefix-length string:
`0xffffffff << (32 - plen)` in 32 bits, and `0` for `/0`. -/
def Ipv4Mask.slash (plen : Nat) : Nat :=
  if 0 < plen then (0xffffffff <<< (32 - plen)) % 2 ^ 32 else 0

/-- The loop of `Ipv4Mask::GetPrefixLength`: shift the mask left inside 32
bits until it is zero, counting the shifts.  `fuel` bounds the loop; 32
shifts always empty a 32-bit word. -/
def Ipv4Mask.lengthLoop : Nat → Nat → Nat → Nat
  | 0, _, tmp => tmp
  | fuel + 1, mask, tmp =>
    if mask = 0 then tmp else Ipv4Mask.lengthLoop fuel ((mask <<< 1) % 2 ^ 32) (tmp + 1)

/-- The prefix length of a mask, `Ipv4Mask::GetPrefixLength`. -/
def Ipv4Mask.GetPrefixLength (mask : Nat) : Nat :=
  Ipv4Mask.lengthLoop 32 mask 0

/-- The all-ones mask `Ipv4Mask::GetOnes()` used for host routes. -/
def Ipv4Mask.GetOnes : Nat := 0xffffffff

/-- The `SUBNET_MASK` macro of line 44: `"255.255.255.252"`. -/
def SUBNET_MASK : Nat := Ipv4Mask.dotted 255 255 255 252

/-- The address `Ipv4Address::CombineMask` yields: the network part. -/
def CombineMask (addr mask : Nat) : Nat := addr &&& mask

/-- The directed broadcast address of the subnet of `addr` under `mask`. -/
def GetSubnetDirectedBroadcast (addr mask : Nat) : Nat :=
  addr ||| (mask ^^^ 0xffffffff)

/-- The host addresses of the subnet `network`/`mask` that can be given to a
device: every address of the subnet except the network address itself and
the broadcast address. -/
def usableAddresses (network mask : Nat) : List Nat :=
  ((List.range (2 ^ (32 - Ipv4Mask.GetPrefixLength mask))).map (fun h => network + h)).filter
    (fun a => a != CombineMask a mask && a != GetSubnetDirectedBroadcast a mask)

/-! ## Units -/

/-- The value of `StringValue("nMbps")` as a data rate in bit/s. -/
def Mbps (n : Nat) : Nat := n * 1000000

/-- The value of `StringValue("nms")` as a time in nanoseconds. -/
def MilliSeconds (n : Nat) : Nat := n * 1000000

/-- The time `Seconds(n)` in nanoseconds (the script only passes whole
numbers of seconds). -/
def Seconds (n : Nat) : Nat := n * 1000000000

/-! ## The simulation objects -/

/-- The kinds of net device the script creates. -/
inductive DeviceKind where
  | loopback
  | pointToPoint
  | csma
deriving DecidableEq

/-- A net device: its kind, the node it was added to, its `DataRate`
attribute and the channel it is attached to (both absent when never set). -/
structure NetDevice where
  kind : DeviceKind
  node : Option Nat
  dataRate : Option Nat
  channel : Option Nat
deriving DecidableEq

/-- A point-to-point channel: its `Delay` attribute in nanoseconds and the
devices attached to it, in attachment order. -/
structure PointToPointChannel where
  delay : Nat
  devices : List Nat
deriving DecidableEq

/-- An interface address, `Ipv4InterfaceAddress(local, mask)`. -/
structure Ipv4InterfaceAddress where
  addr : Nat
  mask : Nat
deriving DecidableEq

/-- The local address of an interface address, `GetLocal()`. -/
def Ipv4InterfaceAddress.GetLocal (a : Ipv4InterfaceAddress) : Nat := a.addr

/-- An IPv4 interface of a node: the device beneath it, its addresses, its
metric and whether it is up. -/
structure Ipv4Interface where
  device : Nat
  addresses : List Ipv4InterfaceAddress
  metric : Nat
  up : Bool
deriving DecidableEq

/-- An entry of a node's static routing table. -/
structure Ipv4RoutingTableEntry where
  dest : Nat
  mask : Nat
  gateway : Nat
  interface : Nat
  metric : Nat
deriving DecidableEq

/-- A node with its IPv4 stack: the interface list (the position in the list
is the interface index) and the static routing table in insertion order. -/
structure Node where
  interfaces : List Ipv4Interface
  routes : List Ipv4RoutingTableEntry
deriving DecidableEq

/-- The two applications the script installs. -/
inductive AppKind where
  | onOff (remote : Nat) (port : Nat) (dataRate : Nat) (packetSize : Nat)
  | packetSink (listen : Nat) (port : Nat)
deriving DecidableEq

/-- An installed application with its start and stop times (absent until
`Start` / `Stop` is called on its container). -/
structure Application where
  node : Nat
  kind : AppKind
  start : Option Nat
  stop : Option Nat
deriving DecidableEq

/-- Everything the script builds before it calls `Simulator::Run`. -/
structure Sim where
  nodes : List Node
  devices : List NetDevice
  channels : List PointToPointChannel
  apps : List Application
deriving DecidableEq

/-- The empty world at the start of `main`. -/
def Sim.empty : Sim := ⟨[], [], [], []⟩

/-! ## Library calls made by the script -/

/-- Model of `CreateObject<Node>()`: a fresh node without stack; its id is
its position in the node list. -/
def CreateNode (s : Sim) : Nat × Sim :=
  (s.nodes.length, { s with nodes := s.nodes ++ [⟨[], []⟩] })

/-- Apply `f` to node `n`; fails when the node does not exist. -/
def modifyNode (s : Sim) (n : Nat) (f : Node → Node) : Option Sim :=
  match s.nodes[n]? with
  | none => none
  | some nd => some { s with nodes := s.nodes.set n (f nd) }

/-- Apply `f` to interface `i` of a node; fails when the index is out of
range. -/
def modifyInterface (nd : Node) (i : Nat) (f : Ipv4Interface → Ipv4Interface) : Option Node :=
  match nd.interfaces[i]? with
  | none => none
  | some ifc => some { nd with interfaces := nd.interfaces.set i (f ifc) }

/-- Add a device to the world and return its id. -/
def newDevice (s : Sim) (d : NetDevice) : Nat × Sim :=
  (s.devices.length, { s with devices := s.devices ++ [d] })

/-- Model of `InternetStackHelper::Install` on one node: the stack brings a
loopback device whose interface is the node's interface 0, with address
127.0.0.1/8, up. -/
def installStack (s : Sim) (n : Nat) : Option Sim :=
  let (d, s) := newDevice s ⟨DeviceKind.loopback, some n, none, none⟩
  modifyNode s n (fun nd => { nd with interfaces :=
    nd.interfaces ++ [⟨d, [⟨Ipv4Address 127 0 0 1, Ipv4Mask.dotted 255 0 0 0⟩], 1, true⟩] })

/-- Model of `InternetStackHelper::Install(NodeContainer)`: install the
stack on each node of the container in order. -/
def InternetStackHelper.Install : Sim → List Nat → Option Sim
  | s, [] => some s
  | s, n :: ns => (installStack s n).bind (fun s => InternetStackHelper.Install s ns)

/-- The attributes held by a `PointToPointHelper`. -/
structure PointToPointHelper where
  dataRate : Option Nat
  delay : Nat
deriving DecidableEq

/-- Model of `PointToPointHelper::Install` on a container of two nodes: one
device per node carrying the helper's device attributes, and one channel
carrying the helper's channel attributes to which both are attached.  The
returned container lists the devices in the order of the node container. -/
def PointToPointHelper.Install (p2p : PointToPointHelper) (s : Sim) (a b : Nat) :
    List Nat × Sim :=
  let ch := s.channels.length
  let (dA, s) := newDevice s ⟨DeviceKind.pointToPoint, some a, p2p.dataRate, some ch⟩
  let (dB, s) := newDevice s ⟨DeviceKind.pointToPoint, some b, p2p.dataRate, some ch⟩
  ([dA, dB], { s with channels := s.channels ++ [⟨p2p.delay, [dA, dB]⟩] })

/-- Model of `CreateObject<CsmaNetDevice>()`: a CSMA device that belongs to
no node yet and is attached to no channel. -/
def CreateCsmaNetDevice (s : Sim) : Nat × Sim :=
  newDevice s ⟨DeviceKind.csma, none, none, none⟩

/-- Model of `Node::AddDevice`: the device now belongs to node `n`. -/
def AddDevice (s : Sim) (n d : Nat) : Option Sim :=
  match s.nodes[n]?, s.devices[d]? with
  | some _, some dev => some { s with devices := s.devices.set d { dev with node := some n } }
  | _, _ => none

/-- Position of the first interface built on device `d`, counting from
`i`. -/
def findInterface (d : Nat) : List Ipv4Interface → Nat → Option Nat
  | [], _ => none
  | ifc :: rest, i => if ifc.device = d then some i else findInterface d rest (i + 1)

/-- Model of `Ipv4::GetInterfaceForDevice`: the index of the interface on
the device, if it has one. -/
def GetInterfaceForDevice (nd : Node) (d : Nat) : Option Nat :=
  findInterface d nd.interfaces 0

/-- Model of `Ipv4::AddInterface`: a new interface without address, metric
1, down; its index is the number of interfaces the node had before. -/
def AddInterface (s : Sim) (n d : Nat) : Option (Nat × Sim) :=
  match s.nodes[n]? with
  | none => none
  | some nd =>
    (modifyNode s n (fun nd => { nd with interfaces := nd.interfaces ++ [⟨d, [], 1, false⟩] })).map
      (fun s => (nd.interfaces.length, s))

/-- Model of `Ipv4::AddAddress(interface, address)`. -/
def AddAddress (s : Sim) (n i : Nat) (a : Ipv4InterfaceAddress) : Option Sim :=
  match s.nodes[n]? with
  | none => none
  | some nd =>
    (modifyInterface nd i (fun ifc => { ifc with addresses := ifc.addresses ++ [a] })).map
      (fun nd => { s with nodes := s.nodes.set n nd })

/-- Model of `Ipv4::SetMetric(interface, metric)`. -/
def SetMetric (s : Sim) (n i m : Nat) : Option Sim :=
  match s.nodes[n]? with
  | none => none
  | some nd =>
    (modifyInterface nd i (fun ifc => { ifc with metric := m })).map
      (fun nd => { s with nodes := s.nodes.set n nd })

/-- Model of `Ipv4::SetUp(interface)`. -/
def SetUp (s : Sim) (n i : Nat) : Option Sim :=
  match s.nodes[n]? with
  | none => none
  | some nd =>
    (modifyInterface nd i (fun ifc => { ifc with up := true })).map
      (fun nd => { s with nodes := s.nodes.set n nd })

/-- The state of an `Ipv4AddressHelper` after `SetBase`: the network number
shifted down, the mask, the next host number to hand out, the number of host
bits and the largest host number it may hand out. -/
structure Ipv4AddressHelper where
  network : Nat
  mask : Nat
  address : Nat
  shift : Nat
  max : Nat
deriving DecidableEq

/-- The loop of `Ipv4AddressHelper::NumAddressBits`: the position of the
lowest set bit of the mask, searched over the 32 bit positions. -/
def numAddressBitsLoop : Nat → Nat → Nat → Option Nat
  | 0, _, _ => none
  | fuel + 1, i, maskbits =>
    if maskbits &&& 1 = 1 then some i else numAddressBitsLoop fuel (i + 1) (maskbits >>> 1)

/-- Model of `Ipv4AddressHelper::NumAddressBits`; fails on a mask without a
set bit. -/
def NumAddressBits (maskbits : Nat) : Option Nat :=
  numAddressBitsLoop 32 0 maskbits

/-- Model of `Ipv4AddressHelper::SetBase(network, mask)` with the first host
number left at its default `0.0.0.1`.  It fails when the network has bits
outside the mask. -/
def SetBase (network mask : Nat) : Option Ipv4AddressHelper :=
  if network &&& (mask ^^^ 0xffffffff) = 0 then
    (NumAddressBits mask).map (fun shift =>
      ⟨network >>> shift, mask, Ipv4Address 0 0 0 1, shift, (1 <<< shift) - 2⟩)
  else none

/-- Model of `Ipv4AddressHelper::NewAddress`: the next address of the subnet
and the advanced helper; fails once the host numbers are used up. -/
def NewAddress (h : Ipv4AddressHelper) : Option (Nat × Ipv4AddressHelper) :=
  if h.address ≤ h.max then
    some ((h.network <<< h.shift) ||| h.address, { h with address := h.address + 1 })
  else none

/-- The addresses handed out by `k` successive calls of `NewAddress`; fails
when one of the calls does. -/
def NewAddresses : Nat → Ipv4AddressHelper → Option (List Nat)
  | 0, _ => some []
  | k + 1, h =>
    match NewAddress h with
    | none => none
    | some (a, h) => (NewAddresses k h).map (fun as => a :: as)

/-- One round of the loop of `Ipv4AddressHelper::Assign`, for device `d`:
find the device's node, reuse the device's interface or add one, give it the
next address of the subnet with the helper's mask, set its metric to 1 and
bring it up.  Returns the `(node, interface)` pair put into the interface
container. -/
def assignDevice (h : Ipv4AddressHelper) (s : Sim) (d : Nat) :
    Option ((Nat × Nat) × Ipv4AddressHelper × Sim) := do
  let dev ← s.devices[d]?
  let n ← dev.node
  let nd ← s.nodes[n]?
  let (i, s) ← (match GetInterfaceForDevice nd d with
    | some i => some (i, s)
    | none => AddInterface s n d)
  let (a, h) ← NewAddress h
  let s ← AddAddress s n i ⟨a, h.mask⟩
  let s ← SetMetric s n i 1
  let s ← SetUp s n i
  pure ((n, i), h, s)

/-- Model of `Ipv4AddressHelper::Assign(NetDeviceContainer)`: run
`assignDevice` over the devices in container order and collect the
interface container. -/
def Assign : Ipv4AddressHelper → Sim → List Nat →
    Option (List (Nat × Nat) × Ipv4AddressHelper × Sim)
  | h, s, [] => some ([], h, s)
  | h, s, d :: ds => do
    let (p, h, s) ← assignDevice h s d
    let (ps, h, s) ← Assign h s ds
    pure (p :: ps, h, s)

/-- Model of `Ipv4StaticRouting::AddHostRouteTo(dest, nextHop, interface)`
on the static routing table of node `n`: a route with the all-ones mask and
the default metric 0 is appended. -/
def AddHostRouteTo (s : Sim) (n dest nextHop interface : Nat) : Option Sim :=
  modifyNode s n (fun nd => { nd with routes :=
    nd.routes ++ [⟨dest, Ipv4Mask.GetOnes, nextHop, interface, 0⟩] })

/-- The attributes held by an `OnOffHelper`. -/
structure OnOffHelper where
  remote : Nat
  port : Nat
  dataRate : Nat
  packetSize : Nat
deriving DecidableEq

/-- The `PacketSize` an on-off application has unless the script sets it: the
library's attribute default and the default of the second parameter of
`OnOffHelper::SetConstantRate`, 512 bytes. -/
def OnOffHelper.defaultPacketSize : Nat := 512

/-- The `DataRate` an on-off application has unless the script sets it, the
library's attribute default of 500 kbit/s. -/
def OnOffHelper.defaultDataRate : Nat := 500000

/-- Model of the constructor `OnOffHelper(protocol, address)`: only the
remote address and port are set. -/
def OnOffHelper.create (remote port : Nat) : OnOffHelper :=
  ⟨remote, port, OnOffHelper.defaultDataRate, OnOffHelper.defaultPacketSize⟩

/-- Model of `OnOffHelper::SetConstantRate(dataRate, packetSize)`. -/
def OnOffHelper.SetConstantRate (h : OnOffHelper) (dataRate packetSize : Nat) : OnOffHelper :=
  { h with dataRate := dataRate, packetSize := packetSize }

/-- Install an application on node `n` and return the container holding
it. -/
def installApp (s : Sim) (n : Nat) (k : AppKind) : Option (List Nat × Sim) :=
  match s.nodes[n]? with
  | none => none
  | some _ => some ([s.apps.length], { s with apps := s.apps ++ [⟨n, k, none, none⟩] })

/-- Model of `OnOffHelper::Install(node)`. -/
def OnOffHelper.Install (h : OnOffHelper) (s : Sim) (n : Nat) : Option (List Nat × Sim) :=
  installApp s n (AppKind.onOff h.remote h.port h.dataRate h.packetSize)

/-- Model of `PacketSinkHelper(protocol, address).Install(node)`. -/
def PacketSinkHelper.Install (listen port : Nat) (s : Sim) (n : Nat) : Option (List Nat × Sim) :=
  installApp s n (AppKind.packetSink listen port)

/-- Apply `f` to each application of a container. -/
def modifyApps (f : Application → Application) : Sim → List Nat → Option Sim
  | s, [] => some s
  | s, a :: as =>
    match s.apps[a]? with
    | none => none
    | some app => modifyApps f { s with apps := s.apps.set a (f app) } as

/-- Model of `ApplicationContainer::Start(time)`. -/
def ApplicationContainer.Start (s : Sim) (apps : List Nat) (t : Nat) : Option Sim :=
  modifyApps (fun app => { app with start := some t }) s apps

/-- Model of `ApplicationContainer::Stop(time)`. -/
def ApplicationContainer.Stop (s : Sim) (apps : List Nat) (t : Nat) : Option Sim :=
  modifyApps (fun app => { app with stop := some t }) s apps

/-- The address `Ipv4Address::GetAny()`, 0.0.0.0. -/
def GetAny : Nat := Ipv4Address 0 0 0 0

/-- The node with id `n`; a node without stack when the id is unknown. -/
def Sim.node (s : Sim) (n : Nat) : Node :=
  (s.nodes[n]?).getD ⟨[], []⟩

/-- The address list of interface `i` of node `n` (empty when there is no
such interface). -/
def Sim.addressesOf (s : Sim) (n i : Nat) : List Nat :=
  match (s.node n).interfaces[i]? with
  | none => []
  | some ifc => ifc.addresses.map Ipv4InterfaceAddress.GetLocal

/-- Model of `Ipv4InterfaceContainer::GetAddress(i)`: the first address of
the `i`-th `(node, interface)` pair of the container. -/
def GetAddress (s : Sim) (ifc : List (Nat × Nat)) (i : Nat) : Option Nat :=
  match ifc[i]? with
  | none => none
  | some (n, j) => (s.addressesOf n j).head?

/-- The function `print_interface_ipv4` (lines 46-53): one output line per
interface of the container, made of the value of the static counter `call`
and the address `ifc.GetAddress(i)`; the counter is then incremented.
Returns the lines and the new counter value. -/
def print_interface_ipv4 (s : Sim) (call : Nat) (ifc : List (Nat × Nat)) :
    Option (List (Nat × Nat) × Nat) :=
  ((List.range ifc.length).mapM (fun i => (GetAddress s ifc i).map (fun a => (call, a)))).map
    (fun lines => (lines, call + 1))

/-! ## The script -/

/-- A run of set-up code: `none` when a call fails (an index that does not
exist, a failed assertion of the address helper), `some` of the result
otherwise. -/
def Setup (α : Type) : Type := Option α

/-- Sequencing of set-up code: the first failure ends the run. -/
@[noinline] def Setup.bind {α β : Type} (x : Setup α) (f : α → Setup β) : Setup β :=
  match x with
  | none => none
  | some a => f a

instance : Monad Setup where
  pure := some
  bind := Setup.bind

/-- The local variables of `main` that the theorems below read, together with
the world built and the lines printed, as they stand when `main` reaches
`Simulator::Run`. -/
structure Script where
  sim : Sim
  nA : Nat
  nB : Nat
  nC : Nat
  nD : Nat
  dAdB : List Nat
  dBdC : List Nat
  dCdD : List Nat
  deviceA : Nat
  deviceD : Nat
  iAiB : List (Nat × Nat)
  iBiC : List (Nat × Nat)
  iCiD : List (Nat × Nat)
  ifIndexA : Nat
  ifIndexD : Nat
  ifInAddrA : Ipv4InterfaceAddress
  ifInAddrD : Ipv4InterfaceAddress
  port : Nat
  onoffApps : List Nat
  sinkApps : List Nat
  printed : List (Nat × Nat)
deriving DecidableEq

/-- The body of `main` (lines 56-268) up to `Simulator::Run`, statement by
statement, run without command-line arguments.  Logging and the trace-file
helpers do not change the configuration and are left out. -/
def main : Setup Script := do
  let s := Sim.empty
  -- lines 70-73: node creation
  let (nA, s) := CreateNode s
  let (nB, s) := CreateNode s
  let (nC, s) := CreateNode s
  let (nD, s) := CreateNode s
  -- lines 77-81: the container of all nodes gets the internet stack
  let c := [nA, nB, nC, nD]
  let s ← InternetStackHelper.Install s c
  -- lines 93-98: the point-to-point helper and the three installs
  let p2p : PointToPointHelper := ⟨none, 0⟩
  let p2p := { p2p with dataRate := some (Mbps 5) }
  let p2p := { p2p with delay := MilliSeconds 2 }
  let (dAdB, s) := p2p.Install s nA nB
  let (dBdC, s) := p2p.Install s nB nC
  let (dCdD, s) := p2p.Install s nC nD
  -- lines 106-114: one CSMA device on A and one on D
  let (deviceA, s) := CreateCsmaNetDevice s
  let s ← AddDevice s nA deviceA
  let (deviceD, s) := CreateCsmaNetDevice s
  let s ← AddDevice s nD deviceD
  -- lines 119-139: addresses of the three links, printed after each `Assign`
  let ipv4 ← SetBase (Ipv4Address 10 1 1 0) SUBNET_MASK
  let (iAiB, _, s) ← Assign ipv4 s dAdB
  let (out0, call) ← print_interface_ipv4 s 0 iAiB
  let ipv4 ← SetBase (Ipv4Address 10 1 2 0) SUBNET_MASK
  let (iBiC, _, s) ← Assign ipv4 s dBdC
  let (out1, call) ← print_interface_ipv4 s call iBiC
  let ipv4 ← SetBase (Ipv4Address 10 1 3 0) SUBNET_MASK
  let (iCiD, _, s) ← Assign ipv4 s dCdD
  let (out2, _) ← print_interface_ipv4 s call iCiD
  -- lines 142-149: the interfaces of the CSMA devices
  let ipv4A := nA
  let ipv4B := nB
  let ipv4C := nC
  let ipv4D := nD
  let (ifIndexA, s) ← AddInterface s ipv4A deviceA
  let (ifIndexD, s) ← AddInterface s ipv4D deviceD
  -- lines 153-165: the address of A's extra interface
  let ifInAddrA : Ipv4InterfaceAddress := ⟨Ipv4Address 172 16 1 1, Ipv4Mask.slash 30⟩
  let s ← AddAddress s ipv4A ifIndexA ifInAddrA
  let s ← SetMetric s ipv4A ifIndexA 1
  let s ← SetUp s ipv4A ifIndexA
  -- lines 169-172: the address of D's extra interface
  let ifInAddrD : Ipv4InterfaceAddress := ⟨Ipv4Address 192 168 1 1, Ipv4Mask.slash 30⟩
  let s ← AddAddress s ipv4D ifIndexD ifInAddrD
  let s ← SetMetric s ipv4D ifIndexD 1
  let s ← SetUp s ipv4D ifIndexD
  -- lines 177-185: static routes from A to D
  let s ← AddHostRouteTo s ipv4A (Ipv4Address 192 168 1 1) (Ipv4Address 10 1 1 2) 1
  let s ← AddHostRouteTo s ipv4B (Ipv4Address 192 168 1 1) (Ipv4Address 10 1 2 2) 2
  let s ← AddHostRouteTo s ipv4C (Ipv4Address 192 168 1 1) (Ipv4Address 10 1 3 2) 2
  -- lines 188-195: static routes from D to A
  let s ← AddHostRouteTo s ipv4D (Ipv4Address 172 16 1 1) (Ipv4Address 10 1 3 1) 1
  let s ← AddHostRouteTo s ipv4C (Ipv4Address 172 16 1 1) (Ipv4Address 10 1 2 1) 1
  let s ← AddHostRouteTo s ipv4B (Ipv4Address 172 16 1 1) (Ipv4Address 10 1 1 1) 1
  -- lines 203-218: the on-off application on A; `SetConstantRate` is called
  -- with the data rate only, so its second parameter takes its default
  let port := 9
  let onoff := OnOffHelper.create ifInAddrD.GetLocal port
  let onoff := onoff.SetConstantRate 6000 OnOffHelper.defaultPacketSize
  let (apps, s) ← onoff.Install s nA
  let s ← ApplicationContainer.Start s apps (Seconds 1)
  let s ← ApplicationContainer.Stop s apps (Seconds 10)
  let onoffApps := apps
  -- lines 227-238: the packet sink on D
  let (apps, s) ← PacketSinkHelper.Install GetAny port s nD
  let s ← ApplicationContainer.Start s apps (Seconds 1)
  let s ← ApplicationContainer.Stop s apps (Seconds 10)
  pure ⟨s, nA, nB, nC, nD, dAdB, dBdC, dCdD, deviceA, deviceD, iAiB, iBiC, iCiD,
    ifIndexA, ifIndexD, ifInAddrA, ifInAddrD, port, onoffApps, apps, out0 ++ out1 ++ out2⟩

/-! ## Reading the built configuration -/

/-- Whether `a` is an address of some interface of node `n`. -/
def Sim.hasAddress (s : Sim) (n a : Nat) : Bool :=
  (s.node n).interfaces.any (fun ifc => ifc.addresses.any (fun x => x.addr == a))

/-- The kind of the device beneath interface `i` of node `n`. -/
def Sim.interfaceKind (s : Sim) (n i : Nat) : Option DeviceKind := do
  let ifc ← (s.node n).interfaces[i]?
  let dev ← s.devices[ifc.device]?
  pure dev.kind

/-- The `(node, interface)` at the other end of the channel that interface
`i` of node `n` is attached to, if it is attached to one. -/
def Sim.peer (s : Sim) (n i : Nat) : Option (Nat × Nat) := do
  let ifc ← (s.node n).interfaces[i]?
  let dev ← s.devices[ifc.device]?
  let ch ← dev.channel
  let chan ← s.channels[ch]?
  let d ← chan.devices.find? (fun d => d != ifc.device)
  let pdev ← s.devices[d]?
  let m ← pdev.node
  let j ← GetInterfaceForDevice (s.node m) d
  pure (m, j)

/-- The nodes at the two ends of each point-to-point channel, channel by
channel. -/
def Sim.links (s : Sim) : List (List (Option Nat)) :=
  s.channels.map (fun chan => chan.devices.map (fun d => (s.devices[d]?).bind NetDevice.node))

/-- All routes of all nodes, each with the id of the node holding it, node by
node. -/
def Sim.allRoutes (s : Sim) : List (Nat × Ipv4RoutingTableEntry) :=
  (List.range s.nodes.length).flatMap (fun n => (s.node n).routes.map (fun r => (n, r)))

/-! ## Forwarding -/

/-- Model of `Ipv4Mask::IsMatch(a, b)`: equal under the mask. -/
def IsMatch (mask a b : Nat) : Bool :=
  a &&& mask == b &&& mask

/-- The loop of `Ipv4StaticRouting::LookupStatic` over the routing table:
among the entries matching `dest` the longest mask wins, then the lowest
metric; a matching host route ends the search. -/
def lookupLoop (dest : Nat) :
    List Ipv4RoutingTableEntry → Option Ipv4RoutingTableEntry → Nat → Nat →
      Option Ipv4RoutingTableEntry
  | [], rtentry, _, _ => rtentry
  | j :: rest, rtentry, longest_mask, shortest_metric =>
    let masklen := Ipv4Mask.GetPrefixLength j.mask
    if IsMatch j.mask dest j.dest then
      if masklen < longest_mask then lookupLoop dest rest rtentry longest_mask shortest_metric
      else
        let shortest_metric := if masklen > longest_mask then 0xffffffff else shortest_metric
        if j.metric > shortest_metric then lookupLoop dest rest rtentry masklen shortest_metric
        else if masklen = 32 then some j
        else lookupLoop dest rest (some j) masklen j.metric
    else lookupLoop dest rest rtentry longest_mask shortest_metric

/-- Model of `Ipv4StaticRouting::LookupStatic(dest)` on a node: `none` is
the no-route outcome. -/
def LookupStatic (nd : Node) (dest : Nat) : Option Ipv4RoutingTableEntry :=
  lookupLoop dest nd.routes none 0 0xffffffff

/-- How the journey of a packet ends, with the nodes it visited in order. -/
inductive Outcome where
  | delivered (path : List Nat)
  | noRoute (path : List Nat)
  | noLink (path : List Nat)
  | ttlExpired (path : List Nat)
deriving DecidableEq

/-- Follow the static routes hop by hop for a packet to `dest` that is at
node `n` with `ttl` hops left, having visited `path`: a node that owns
`dest` delivers; otherwise the node looks up its table and sends the packet
out of the route's interface, to the node at the other end of that link. -/
def forward (s : Sim) (dest : Nat) : Nat → Nat → List Nat → Outcome
  | 0, n, path => Outcome.ttlExpired (path ++ [n])
  | ttl + 1, n, path =>
    if s.hasAddress n dest then Outcome.delivered (path ++ [n])
    else
      match LookupStatic (s.node n) dest with
      | none => Outcome.noRoute (path ++ [n])
      | some r =>
        match s.peer n r.interface with
        | none => Outcome.noLink (path ++ [n])
        | some (m, _) => forward s dest ttl m (path ++ [n])

/-- The initial time-to-live of a packet, the stack's default of 64. -/
def defaultTtl : Nat := 64

/-! ## The traffic generator -/

/-- The number of whole packets a constant-rate generator emits in its
active window: `floor(window_seconds * rate / (packetSize * 8))`, with the
window given by its start and stop times in nanoseconds. -/
def packetsInWindow (start stop rate packetSize : Nat) : Nat :=
  ((stop - start) * rate) / (packetSize * 8 * 1000000000)

/-- The packet count of an application over its window; `none` for an
application that is not a generator or has no window. -/
def Application.packets (app : Application) : Option Nat :=
  match app.kind, app.start, app.stop with
  | AppKind.onOff _ _ rate size, some t0, some t1 => some (packetsInWindow t0 t1 rate size)
  | _, _, _ => none

/-- Whether two counts differ by at most 1. -/
def withinOne (a b : Nat) : Bool :=
  a ≤ b + 1 && b ≤ a + 1

/-- The nodes a journey visited, in order. -/
def Outcome.path : Outcome → List Nat
  | Outcome.delivered p => p
  | Outcome.noRoute p => p
  | Outcome.noLink p => p
  | Outcome.ttlExpired p => p

/-- The number of links a journey crossed. -/
def Outcome.hops (o : Outcome) : Nat :=
  o.path.length - 1

/-- The next-hop address node `n` names for `dest`, if it has a route. -/
def Sim.nextHop (s : Sim) (n dest : Nat) : Option Nat :=
  (LookupStatic (s.node n) dest).map (fun r => r.gateway)

/-- Whether an application is an on-off generator. -/
def Application.isOnOff (app : Application) : Bool :=
  match app.kind with
  | AppKind.onOff _ _ _ _ => true
  | AppKind.packetSink _ _ => false

/-! ## Theorems -/

/-- C1: for destination 192.168.1.1 the static routes lead from A over B and
C to D: the walk from A ends delivered with path A, B, C, D after exactly 3
hops (for every time-to-live that allows 3 hops, the default 64 included),
each lookup on the way finds a route whose next hop is an address of the
next node, and 192.168.1.1 is an address of D. -/
theorem forward_path_A_to_D :
    ∃ r, main = some r ∧
      [r.nA, r.nB, r.nC, r.nD].Nodup ∧
      (∀ ttl, forward r.sim (Ipv4Address 192 168 1 1) (ttl + 4) r.nA [] =
        Outcome.delivered [r.nA, r.nB, r.nC, r.nD]) ∧
      forward r.sim (Ipv4Address 192 168 1 1) defaultTtl r.nA [] =
        Outcome.delivered [r.nA, r.nB, r.nC, r.nD] ∧
      (forward r.sim (Ipv4Address 192 168 1 1) defaultTtl r.nA []).hops = 3 ∧
      r.sim.nextHop r.nA (Ipv4Address 192 168 1 1) = some (Ipv4Address 10 1 1 2) ∧
      r.sim.hasAddress r.nB (Ipv4Address 10 1 1 2) = true ∧
      r.sim.nextHop r.nB (Ipv4Address 192 168 1 1) = some (Ipv4Address 10 1 2 2) ∧
      r.sim.hasAddress r.nC (Ipv4Address 10 1 2 2) = true ∧
      r.sim.nextHop r.nC (Ipv4Address 192 168 1 1) = some (Ipv4Address 10 1 3 2) ∧
      r.sim.hasAddress r.nD (Ipv4Address 10 1 3 2) = true ∧
      r.sim.hasAddress r.nD (Ipv4Address 192 168 1 1) = true := by
  refine ⟨_, rfl, ?_, ?_, ?_, ?_, ?_, ?_, ?_, ?_, ?_, ?_, ?_⟩
  · decide
  · intro ttl
    rfl
  all_goals decide

/-- C2: for destination 172.16.1.1 the static routes lead from D over C and
B to A: the walk from D ends delivered with path D, C, B, A after exactly 3
hops (for every time-to-live that allows 3 hops, the default 64 included),
each lookup on the way finds a route whose next hop is an address of the
next node, and 172.16.1.1 is an address of A. -/
theorem reverse_path_D_to_A :
    ∃ r, main = some r ∧
      [r.nD, r.nC, r.nB, r.nA].Nodup ∧
      (∀ ttl, forward r.sim (Ipv4Address 172 16 1 1) (ttl + 4) r.nD [] =
        Outcome.delivered [r.nD, r.nC, r.nB, r.nA]) ∧
      forward r.sim (Ipv4Address 172 16 1 1) defaultTtl r.nD [] =
        Outcome.delivered [r.nD, r.nC, r.nB, r.nA] ∧
      (forward r.sim (Ipv4Address 172 16 1 1) defaultTtl r.nD []).hops = 3 ∧
      r.sim.nextHop r.nD (Ipv4Address 172 16 1 1) = some (Ipv4Address 10 1 3 1) ∧
      r.sim.hasAddress r.nC (Ipv4Address 10 1 3 1) = true ∧
      r.sim.nextHop r.nC (Ipv4Address 172 16 1 1) = some (Ipv4Address 10 1 2 1) ∧
      r.sim.hasAddress r.nB (Ipv4Address 10 1 2 1) = true ∧
      r.sim.nextHop r.nB (Ipv4Address 172 16 1 1) = some (Ipv4Address 10 1 1 1) ∧
      r.sim.hasAddress r.nA (Ipv4Address 10 1 1 1) = true ∧
      r.sim.hasAddress r.nA (Ipv4Address 172 16 1 1) = true := by
  refine ⟨_, rfl, ?_, ?_, ?_, ?_, ?_, ?_, ?_, ?_, ?_, ?_, ?_⟩
  · decide
  · intro ttl
    rfl
  all_goals decide

/-- C3: the topology built by `main` has exactly four nodes A, B, C, D and
exactly three point-to-point channels, joining A-B, B-C and C-D; the only
devices attached to a channel are the six point-to-point devices, each with
data rate 5 Mbit/s, and every channel has a delay of 2 ms. -/
theorem chain_of_three_links :
    ∃ r, main = some r ∧
      r.sim.nodes.length = 4 ∧
      [r.nA, r.nB, r.nC, r.nD] = [0, 1, 2, 3] ∧
      r.sim.channels.length = 3 ∧
      r.sim.links = [[some r.nA, some r.nB], [some r.nB, some r.nC],
        [some r.nC, some r.nD]] ∧
      r.sim.channels.map (fun c => c.devices) = [r.dAdB, r.dBdC, r.dCdD] ∧
      (∀ d ∈ r.sim.devices, d.kind = DeviceKind.pointToPoint ↔ d.channel.isSome = true) ∧
      (∀ d ∈ r.sim.devices, d.kind = DeviceKind.pointToPoint → d.dataRate = some 5000000) ∧
      (∀ c ∈ r.sim.channels, c.delay = 2000000 ∧
        ∀ d ∈ c.devices, (r.sim.devices[d]?).map (fun x => (x.kind, x.dataRate)) =
          some (DeviceKind.pointToPoint, some 5000000)) := by
  refine ⟨_, rfl, ?_⟩
  decide

/-- C4 (as the code has it): the one generator `main` installs sits on node
A, sends to 192.168.1.1 port 9 at 6000 bit/s from t = 1 s to t = 10 s, and
its packet size is the 512 bytes of the default, not 210: the script never
passes a packet size. -/
theorem generator_configuration :
    ∃ r, main = some r ∧
      r.onoffApps.map (fun a => r.sim.apps[a]?) =
        [some ⟨r.nA, AppKind.onOff (Ipv4Address 192 168 1 1) 9 6000 512,
          some 1000000000, some 10000000000⟩] ∧
      r.sim.apps.filter Application.isOnOff =
        [⟨r.nA, AppKind.onOff (Ipv4Address 192 168 1 1) 9 6000
          OnOffHelper.defaultPacketSize, some (Seconds 1), some (Seconds 10)⟩] ∧
      r.sim.hasAddress r.nD (Ipv4Address 192 168 1 1) = true ∧
      OnOffHelper.defaultPacketSize ≠ 210 := by
  refine ⟨_, rfl, ?_⟩
  decide

/-- C5 (as the code has it): over its window of 9 s the generator `main`
configures emits floor(9 * 6000 / (512 * 8)) = 13 whole packets, while the
expected count for 210-byte packets is floor(9 * 6000 / (210 * 8)) = 32; the
two differ by 19, more than 1. -/
theorem generator_packet_count :
    ∃ r, main = some r ∧
      (r.sim.apps.filter Application.isOnOff).map Application.packets = [some 13] ∧
      packetsInWindow (Seconds 1) (Seconds 10) 6000 210 = 32 ∧
      9 * 6000 / (210 * 8) = 32 ∧
      (r.sim.apps.filter Application.isOnOff).map
        (fun a => a.packets.map (withinOne (packetsInWindow (Seconds 1) (Seconds 10) 6000 210))) =
        [some false] := by
  refine ⟨_, rfl, ?_⟩
  decide

/-- C6: the mask of the links is 255.255.255.252, a /30; each of the three
link subnets has exactly two usable addresses, which are the two the address
helper hands out before it is exhausted; in 10.1.1.0/30 the network
address is 10.1.1.0, the usable addresses are 10.1.1.1 and 10.1.1.2 and the
broadcast address is 10.1.1.3; and on each link the interface of the
first-listed node holds exactly base+1 and that of the second exactly
base+2, the two usable addresses, under that mask. -/
theorem link_addresses :
    SUBNET_MASK = Ipv4Mask.dotted 255 255 255 252 ∧
    Ipv4Mask.GetPrefixLength SUBNET_MASK = 30 ∧
    (∀ base ∈ [Ipv4Address 10 1 1 0, Ipv4Address 10 1 2 0, Ipv4Address 10 1 3 0],
      (usableAddresses base SUBNET_MASK).length = 2 ∧
      (SetBase base SUBNET_MASK).bind (NewAddresses 2) = some (usableAddresses base SUBNET_MASK) ∧
      (SetBase base SUBNET_MASK).bind (NewAddresses 3) = none) ∧
    CombineMask (Ipv4Address 10 1 1 1) SUBNET_MASK = Ipv4Address 10 1 1 0 ∧
    usableAddresses (Ipv4Address 10 1 1 0) SUBNET_MASK =
      [Ipv4Address 10 1 1 1, Ipv4Address 10 1 1 2] ∧
    GetSubnetDirectedBroadcast (Ipv4Address 10 1 1 1) SUBNET_MASK = Ipv4Address 10 1 1 3 ∧
    ∃ r, main = some r ∧
      r.printed =
        [(0, Ipv4Address 10 1 1 1), (0, Ipv4Address 10 1 1 2),
         (1, Ipv4Address 10 1 2 1), (1, Ipv4Address 10 1 2 2),
         (2, Ipv4Address 10 1 3 1), (2, Ipv4Address 10 1 3 2)] ∧
      r.iAiB.map (fun p => (p.1, r.sim.addressesOf p.1 p.2)) =
        [(r.nA, [Ipv4Address 10 1 1 1]), (r.nB, [Ipv4Address 10 1 1 2])] ∧
      r.iBiC.map (fun p => (p.1, r.sim.addressesOf p.1 p.2)) =
        [(r.nB, [Ipv4Address 10 1 2 1]), (r.nC, [Ipv4Address 10 1 2 2])] ∧
      r.iCiD.map (fun p => (p.1, r.sim.addressesOf p.1 p.2)) =
        [(r.nC, [Ipv4Address 10 1 3 1]), (r.nD, [Ipv4Address 10 1 3 2])] ∧
      (r.iAiB.map (fun p => r.sim.addressesOf p.1 p.2)).flatten =
        usableAddresses (Ipv4Address 10 1 1 0) SUBNET_MASK ∧
      (r.iBiC.map (fun p => r.sim.addressesOf p.1 p.2)).flatten =
        usableAddresses (Ipv4Address 10 1 2 0) SUBNET_MASK ∧
      (r.iCiD.map (fun p => r.sim.addressesOf p.1 p.2)).flatten =
        usableAddresses (Ipv4Address 10 1 3 0) SUBNET_MASK ∧
      (∀ p ∈ r.iAiB ++ r.iBiC ++ r.iCiD,
        r.sim.interfaceKind p.1 p.2 = some DeviceKind.pointToPoint ∧
        ((r.sim.node p.1).interfaces[p.2]?).map (fun i => i.addresses.map (fun a => a.mask)) =
          some [SUBNET_MASK]) := by
  refine ⟨rfl, by decide, by decide, by decide, by decide, by decide, _, rfl, ?_⟩
  decide

/-- C7 (as the code has it): the address `main` puts on the interface of
`deviceA` on node A is 172.16.1.1 with the mask 255.255.255.252, whose prefix
length is 30, not 32. -/
theorem deviceA_address :
    ∃ r, main = some r ∧
      r.ifInAddrA = ⟨Ipv4Address 172 16 1 1, Ipv4Mask.dotted 255 255 255 252⟩ ∧
      Ipv4Mask.GetPrefixLength r.ifInAddrA.mask = 30 ∧
      Ipv4Mask.GetPrefixLength r.ifInAddrA.mask ≠ 32 ∧
      (r.sim.node r.nA).interfaces[r.ifIndexA]? =
        some ⟨r.deviceA, [r.ifInAddrA], 1, true⟩ ∧
      r.sim.interfaceKind r.nA r.ifIndexA = some DeviceKind.csma := by
  refine ⟨_, rfl, ?_⟩
  decide

/-- C8 as stated fails: the reverse route that `main` installs on the transit
node C (to 172.16.1.1 via 10.1.2.1) carries the value 1 after its next hop,
so it is not true that every route on a transit node carries 2. -/
theorem transit_route_with_value_one :
    ∃ r, main = some r ∧
      (r.nC, (⟨Ipv4Address 172 16 1 1, Ipv4Mask.GetOnes, Ipv4Address 10 1 2 1, 1, 0⟩ :
        Ipv4RoutingTableEntry)) ∈ r.sim.allRoutes ∧
      ¬ (∀ p ∈ r.sim.allRoutes,
          (p.1 ∈ [r.nA, r.nD] → p.2.interface = 1) ∧
          (p.1 ∈ [r.nB, r.nC] → p.2.interface = 2)) := by
  refine ⟨_, rfl, ?_⟩
  decide

/-- C8 amended: `main` installs exactly six routes; the value after the next
hop is 1 in every route on an edge node (A or D), and on a transit node (B
or C) it is 2 in the forward route (to 192.168.1.1) and 1 in the reverse
route (to 172.16.1.1). -/
theorem route_values_by_node_and_direction :
    ∃ r, main = some r ∧
      r.sim.allRoutes.map (fun p => (p.1, p.2.dest, p.2.interface)) =
        [(r.nA, Ipv4Address 192 168 1 1, 1),
         (r.nB, Ipv4Address 192 168 1 1, 2),
         (r.nB, Ipv4Address 172 16 1 1, 1),
         (r.nC, Ipv4Address 192 168 1 1, 2),
         (r.nC, Ipv4Address 172 16 1 1, 1),
         (r.nD, Ipv4Address 172 16 1 1, 1)] ∧
      (∀ p ∈ r.sim.allRoutes,
        (p.2.dest = Ipv4Address 192 168 1 1 ∨ p.2.dest = Ipv4Address 172 16 1 1) ∧
        (p.1 ∈ [r.nA, r.nD] → p.2.interface = 1) ∧
        (p.1 ∈ [r.nB, r.nC] → p.2.dest = Ipv4Address 192 168 1 1 →
          p.2.interface = 2) ∧
        (p.1 ∈ [r.nB, r.nC] → p.2.dest = Ipv4Address 172 16 1 1 →
          p.2.interface = 1)) := by
  refine ⟨_, rfl, ?_⟩
  decide

/-- C9: interface 0 of every node is the loopback, and for each of the six
routes `main` installs the egress interface index is not 0 and denotes a
point-to-point interface of the node holding the route, and the address list
of the interface at the other end of that interface's link is exactly the
route's next-hop address. -/
theorem routes_leave_towards_next_hop :
    ∃ r, main = some r ∧
      r.sim.allRoutes.length = 6 ∧
      (∀ n ∈ [r.nA, r.nB, r.nC, r.nD],
        r.sim.interfaceKind n 0 = some DeviceKind.loopback) ∧
      (∀ p ∈ r.sim.allRoutes,
        p.2.interface ≠ 0 ∧
        r.sim.interfaceKind p.1 p.2.interface = some DeviceKind.pointToPoint ∧
        (r.sim.peer p.1 p.2.interface).map (fun q => r.sim.addressesOf q.1 q.2) =
          some [p.2.gateway] ∧
        (r.sim.peer p.1 p.2.interface).map (fun q => r.sim.hasAddress q.1 p.2.gateway) =
          some true) := by
  refine ⟨_, rfl, ?_⟩
  decide

end Hmw3
